import Mathlib

/-!
Verification of the blank-line ("paragraphing") decision engine and the
control-flow clause placement rules of the `@kurtinatlanta/prettier` fork.

The embedding follows `src/language-js/print/statement-sequence.js` and the
try/catch printer (`printTryStatement` / `printCatchClause`).  Statement
nodes are modelled by the fields the engine actually reads: the `type` tag
string, the declaration `kind` string, and for each declarator the `type`
tag of its binding pattern (`decl.id.type`, absent when `decl.id` is
absent) and of its initializer (`decl.init.type`, absent when `decl.init`
is absent).  The per-statement renderer, the source blank-line oracle
(`isNextLineEmpty`) and the comment-attachment collaborator are external
interfaces of the engine and are passed in as parameters / recorded as
attributes, exactly as the spec's §6 describes them.
-/

/-- One declarator of a `VariableDeclaration`: `id` holds `decl.id.type`
when `decl.id` is present, `init` holds `decl.init.type` when `decl.init`
is present. -/
structure Declarator where
  id : Option String := none
  init : Option String := none
deriving Repr, DecidableEq

/-- A statement node as read by the engine: the `type` tag, the
declaration `kind` (only meaningful when `type = "VariableDeclaration"`),
and the declarator list. -/
structure Node where
  type : String
  kind : String := ""
  declarations : List Declarator := []
deriving Repr, DecidableEq

/-- `isImportOrExport` from statement-sequence.js. -/
def isImportOrExport (node : Node) : Bool :=
  node.type == "ImportDeclaration" ||
  node.type == "ExportNamedDeclaration" ||
  node.type == "ExportDefaultDeclaration" ||
  node.type == "ExportAllDeclaration" ||
  node.type == "DeclareExportDeclaration" ||
  node.type == "DeclareExportAllDeclaration"

/-- `isTopLevelDeclaration` from statement-sequence.js. -/
def isTopLevelDeclaration (node : Node) : Bool :=
  node.type == "FunctionDeclaration" ||
  node.type == "ClassDeclaration" ||
  node.type == "TSInterfaceDeclaration" ||
  node.type == "TSTypeAliasDeclaration" ||
  node.type == "TSEnumDeclaration" ||
  node.type == "TSModuleDeclaration" ||
  node.type == "DeclareClass" ||
  node.type == "DeclareFunction" ||
  node.type == "DeclareInterface" ||
  node.type == "DeclareTypeAlias" ||
  node.type == "DeclareModule" ||
  node.type == "InterfaceDeclaration" ||
  node.type == "TypeAlias" ||
  node.type == "EnumDeclaration" ||
  node.type == "ComponentDeclaration" ||
  node.type == "HookDeclaration"

/-- `isVariableDeclaration` from statement-sequence.js. -/
def isVariableDeclaration (node : Node) : Bool :=
  node.type == "VariableDeclaration"

/-- `isDestructuringDeclaration` from statement-sequence.js: some
declarator's binding pattern is an object or array pattern. -/
def isDestructuringDeclaration (node : Node) : Bool :=
  if !isVariableDeclaration node then
    false
  else
    node.declarations.any fun decl =>
      match decl.id with
      | some t => t == "ObjectPattern" || t == "ArrayPattern"
      | none => false

/-- `getDeclarationKind` from statement-sequence.js (`null` becomes
`none`). -/
def getDeclarationKind (node : Node) : Option String :=
  if !isVariableDeclaration node then
    none
  else
    some node.kind

/-- `isBlockStatement` from statement-sequence.js. -/
def isBlockStatement (node : Node) : Bool :=
  node.type == "IfStatement" ||
  node.type == "ForStatement" ||
  node.type == "ForInStatement" ||
  node.type == "ForOfStatement" ||
  node.type == "WhileStatement" ||
  node.type == "DoWhileStatement" ||
  node.type == "TryStatement" ||
  node.type == "SwitchStatement" ||
  node.type == "WithStatement" ||
  node.type == "BlockStatement" ||
  node.type == "LabeledStatement"

/-- `isReturnLikeStatement` from statement-sequence.js: only
`ReturnStatement` counts. -/
def isReturnLikeStatement (node : Node) : Bool :=
  node.type == "ReturnStatement"

/-- The declarator test `decl.init && (decl.init.type ===
"FunctionExpression" || decl.init.type === "ArrowFunctionExpression")`
that statement-sequence.js inlines in `isParagraphStatement` and (twice)
in `areInSameDeclarationBlock`. -/
def declarationsHaveFunctionInit (node : Node) : Bool :=
  node.declarations.any fun decl =>
    match decl.init with
    | some t => t == "FunctionExpression" || t == "ArrowFunctionExpression"
    | none => false

/-- `isParagraphStatement` from statement-sequence.js. -/
def isParagraphStatement (node : Node) : Bool :=
  isTopLevelDeclaration node ||
  isBlockStatement node ||
  (node.type == "VariableDeclaration" && declarationsHaveFunctionInit node)

/-- `areInSameDeclarationBlock` from statement-sequence.js. -/
def areInSameDeclarationBlock (current next : Node) : Bool :=
  if !isVariableDeclaration current || !isVariableDeclaration next then
    false
  else if
      isDestructuringDeclaration current || isDestructuringDeclaration next then
    false
  else if getDeclarationKind current != getDeclarationKind next then
    false
  else if
      declarationsHaveFunctionInit current ||
        declarationsHaveFunctionInit next then
    false
  else
    true

/-- `shouldEnforceBlankLineBetween` from statement-sequence.js: the full
eight-branch early-return chain. -/
def shouldEnforceBlankLineBetween (current next : Node) : Bool :=
  if isImportOrExport current && !isImportOrExport next then
    true
  else if isImportOrExport current && isImportOrExport next then
    false
  else if areInSameDeclarationBlock current next then
    false
  else if
      isVariableDeclaration current &&
        !areInSameDeclarationBlock current next &&
        !isReturnLikeStatement next then
    true
  else if
      isVariableDeclaration next &&
        !isVariableDeclaration current &&
        !isImportOrExport current then
    true
  else if isParagraphStatement current || isParagraphStatement next then
    true
  else if isReturnLikeStatement next && isParagraphStatement current then
    true
  else if isReturnLikeStatement next && isBlockStatement current then
    true
  else
    false

/-- The decision chain restricted to rules 1–6 of the spec (§4.2): the
same chain with the two trailing return-placement branches removed. -/
def shouldEnforceBlankLineRules1to6 (current next : Node) : Bool :=
  if isImportOrExport current && !isImportOrExport next then
    true
  else if isImportOrExport current && isImportOrExport next then
    false
  else if areInSameDeclarationBlock current next then
    false
  else if
      isVariableDeclaration current &&
        !areInSameDeclarationBlock current next &&
        !isReturnLikeStatement next then
    true
  else if
      isVariableDeclaration next &&
        !isVariableDeclaration current &&
        !isImportOrExport current then
    true
  else if isParagraphStatement current || isParagraphStatement next then
    true
  else
    false

/-!
The document IR: the printers of this repository build nested arrays of
strings and of the rendering-stream primitives `hardline`, `softline` and
`indent` (spec §6).  Arrays become `Doc.concat`, strings become
`Doc.text`.
-/

/-- The document IR fragment used by these printers. -/
inductive Doc where
  | text : String → Doc
  | hardline : Doc
  | softline : Doc
  | indent : Doc → Doc
  | concat : List Doc → Doc
deriving Repr

mutual

/-- The flat leaf stream of a document: concatenations are spliced and
`indent` wrappers are dropped, leaving the text / break atoms in
rendering order. -/
def leaves : Doc → List Doc
  | .text s => [.text s]
  | .hardline => [.hardline]
  | .softline => [.softline]
  | .indent d => leaves d
  | .concat ds => leavesList ds

/-- `leaves` mapped over a document list and concatenated. -/
def leavesList : List Doc → List Doc
  | [] => []
  | d :: ds => leaves d ++ leavesList ds

end

/-!
The sequence emitter `printStatementSequence`.  The AST path, the options
record and the statement-list property are folded into their observable
content: `body` is the unfiltered statement list `node[property]`, `print`
is the external per-statement renderer, and `hasBlankAfter` is
`isNextLineEmpty(·, options)`, the source blank-line oracle (spec §6).
The `path.each` loop is modelled by structural recursion carrying the
source's `index` counter, which counts only non-Empty statements; the JS
identity test `currentNode !== lastStatement` on distinct AST node
objects is the positional test "`index` is not the last index of the
filtered list".
-/

/-- The body of the `path.each` loop of `printStatementSequence`:
`statements` is the filtered list, the fourth argument is the remaining
unfiltered tail, `index` counts the non-Empty statements already
emitted. -/
def seqLoop (statements : List Node) (print : Node → Doc)
    (hasBlankAfter : Node → Bool) : List Node → Nat → List Doc
  | [], _ => []
  | currentNode :: rest, index =>
    if currentNode.type == "EmptyStatement" then
      seqLoop statements print hasBlankAfter rest index
    else
      let sep : List Doc :=
        if index + 1 < statements.length then
          let hasBlankLineInSource := hasBlankAfter currentNode
          let shouldEnforceBlank :=
            match statements[index + 1]? with
            | some nextNode =>
                shouldEnforceBlankLineBetween currentNode nextNode
            | none => false
          Doc.hardline ::
            (if hasBlankLineInSource || shouldEnforceBlank then
              [Doc.hardline]
            else
              [])
        else
          []
      (print currentNode :: sep) ++
        seqLoop statements print hasBlankAfter rest (index + 1)

/-- `printStatementSequence` from statement-sequence.js: filter the
Empty statements, then run the emission loop over the unfiltered list. -/
def printStatementSequence (body : List Node) (print : Node → Doc)
    (hasBlankAfter : Node → Bool) : List Doc :=
  let statements := body.filter fun s => s.type != "EmptyStatement"
  seqLoop statements print hasBlankAfter body 0

/-- The emission contract as the spec's §4.3 states it, defined on the
already-filtered list: each non-last statement is followed by exactly one
mandatory line break, plus one additional break exactly when the gap
oracle or the decision function says so, and the last statement gets no
trailing separator. -/
def specEmit (print : Node → Doc) (hasBlankAfter : Node → Bool) :
    List Node → List Doc
  | [] => []
  | [s] => [print s]
  | s :: t :: rest =>
      print s :: Doc.hardline ::
        ((if hasBlankAfter s || shouldEnforceBlankLineBetween s t then
            [Doc.hardline]
          else
            []) ++ specEmit print hasBlankAfter (t :: rest))

/-!
The try/catch/finally printers from the try-statement source file.  The
sub-printers `print("block")`, `print("param")`, `print("body")` and
`print("finalizer")` are the external per-statement renderer, so their
results are carried as opaque `Doc` fields.  Comment attachment is the
external comment-adjacency collaborator (spec §6): each attached comment
is recorded with the attributes the printer queries.
-/

/-- Modelled from the spec (§6 comment-adjacency oracle): one comment
attached to the catch parameter, with the attributes the printer reads —
`isBlockComment` (the is-block-comment utility), `leading` / `trailing`
flags, and the two newline-adjacency facts `hasNewline(originalText,
locEnd(comment))` and `hasNewline(originalText, locStart(comment),
backwards)`. -/
structure Comment where
  isBlockComment : Bool
  leading : Bool
  trailing : Bool
  newlineAfterEnd : Bool
  newlineBeforeStart : Bool
deriving Repr, DecidableEq

/-- The catch parameter: its attached comments and its rendered form
`print("param")`. -/
structure CatchParam where
  comments : List Comment
  doc : Doc

/-- A catch clause: optional bound parameter and the rendered body
`print("body")`. -/
structure CatchClause where
  param : Option CatchParam
  body : Doc

/-- A try statement: rendered `try` block, optional handler, optional
rendered finalizer. -/
structure TryStmt where
  block : Doc
  handler : Option CatchClause
  finalizer : Option Doc

/-- Modelled from the spec (§6): `hasComment(node, predicate)` of the
comment-attachment collaborator — some attached comment satisfies the
predicate. -/
def hasComment (param : CatchParam) (pred : Comment → Bool) : Bool :=
  param.comments.any pred

/-- `printCatchClause` from the try-statement source file. -/
def printCatchClause (node : CatchClause) : Doc :=
  match node.param with
  | some p =>
    let parameterHasComments :=
      hasComment p fun comment =>
        !comment.isBlockComment ||
        (comment.leading && comment.newlineAfterEnd) ||
        (comment.trailing && comment.newlineBeforeStart)
    let param := p.doc
    .concat [.hardline, .text "catch ",
      if parameterHasComments then
        .concat [.text "(", .indent (.concat [.softline, param]),
          .softline, .text ") "]
      else
        .concat [.text "(", param, .text ") "],
      node.body]
  | none => .concat [.hardline, .text "catch ", node.body]

/-- `printTryStatement` from the try-statement source file;
`print("handler")` dispatches to `printCatchClause`. -/
def printTryStatement (node : TryStmt) : Doc :=
  .concat [.text "try ", node.block,
    match node.handler with
    | some h => .concat [.text " ", printCatchClause h]
    | none => .text "",
    match node.finalizer with
    | some f => .concat [.hardline, .text "finally ", f]
    | none => .text ""]

/-!
Concrete statement nodes used in the scenario parts of the claims and in
the witnesses.
-/

/-- `const a = 1;` -/
def constDeclA : Node :=
  { type := "VariableDeclaration", kind := "const",
    declarations := [{ id := some "Identifier", init := some "NumericLiteral" }] }

/-- `const b = 2;` -/
def constDeclB : Node :=
  { type := "VariableDeclaration", kind := "const",
    declarations := [{ id := some "Identifier", init := some "NumericLiteral" }] }

/-- `let c = 3;` -/
def letDeclC : Node :=
  { type := "VariableDeclaration", kind := "let",
    declarations := [{ id := some "Identifier", init := some "NumericLiteral" }] }

/-- `import {a} from "m";` -/
def importDeclM : Node := { type := "ImportDeclaration" }

/-- An export whose declarator list carries a function-valued
initializer shape (`export … = () => …`-like). -/
def exportFnDecl : Node :=
  { type := "ExportNamedDeclaration",
    declarations := [{ id := some "Identifier",
                       init := some "ArrowFunctionExpression" }] }

/-- A plain expression statement `f();`. -/
def exprStmt : Node := { type := "ExpressionStatement" }

/-- `if (x) { f(); }` -/
def ifStmtX : Node := { type := "IfStatement" }

/-- `return y;` -/
def returnStmtY : Node := { type := "ReturnStatement" }

/-- `throw e;` -/
def throwStmtE : Node := { type := "ThrowStatement" }

/-- `;` (an Empty statement). -/
def emptyStmt : Node := { type := "EmptyStatement" }

/-- `try { risky(); } catch (e) { handle(e); } finally { cleanup(); }` -/
def tryCatchFinallyEx : TryStmt :=
  { block := Doc.text "{ risky(); }",
    handler := some { param := some { comments := [], doc := Doc.text "e" },
                      body := Doc.text "{ handle(e); }" },
    finalizer := some (Doc.text "{ cleanup(); }") }

/-- The spec's wording of the comment condition for breakable catch
parentheses: the attached comment is not block-style, or it is a
block-style leading comment followed by a newline, or a block-style
trailing comment preceded by a newline. -/
def specCommentBreaksParens (c : Comment) : Prop :=
  c.isBlockComment = false ∨
  (c.isBlockComment = true ∧ c.leading = true ∧ c.newlineAfterEnd = true) ∨
  (c.isBlockComment = true ∧ c.trailing = true ∧ c.newlineBeforeStart = true)

/-- A line comment attached after the parameter, on its own line. -/
def lineComment : Comment :=
  { isBlockComment := false, leading := false, trailing := true,
    newlineAfterEnd := false, newlineBeforeStart := true }

/-- `catch (e /* with a trailing line comment */) {}` -/
def catchWithLineComment : CatchClause :=
  { param := some { comments := [lineComment], doc := Doc.text "e" },
    body := Doc.text "{}" }

/-- `catch (e) {}` with no comments on the parameter. -/
def catchNoComments : CatchClause :=
  { param := some { comments := [], doc := Doc.text "e" },
    body := Doc.text "{}" }

/-!
Unfolding lemmas for the leaf stream, and classification facts shared by
the proofs below.
-/

@[simp] lemma leaves_text (s : String) : leaves (.text s) = [.text s] := rfl

@[simp] lemma leaves_hardline : leaves .hardline = [.hardline] := rfl

@[simp] lemma leaves_softline : leaves .softline = [.softline] := rfl

@[simp] lemma leaves_indent (d : Doc) : leaves (.indent d) = leaves d := rfl

@[simp] lemma leaves_concat (ds : List Doc) :
    leaves (.concat ds) = leavesList ds := rfl

@[simp] lemma leavesList_nil : leavesList [] = [] := rfl

@[simp] lemma leavesList_cons (d : Doc) (ds : List Doc) :
    leavesList (d :: ds) = leaves d ++ leavesList ds := rfl

lemma var_type (c : Node) (h : isVariableDeclaration c = true) :
    c.type = "VariableDeclaration" := by
  simpa [isVariableDeclaration] using h

lemma sameBlock_of_attrs (c n : Node)
    (hvc : isVariableDeclaration c = true)
    (hvn : isVariableDeclaration n = true)
    (hdc : isDestructuringDeclaration c = false)
    (hdn : isDestructuringDeclaration n = false)
    (hk : getDeclarationKind c = getDeclarationKind n)
    (hfc : declarationsHaveFunctionInit c = false)
    (hfn : declarationsHaveFunctionInit n = false) :
    areInSameDeclarationBlock c n = true := by
  simp [areInSameDeclarationBlock, hvc, hvn, hdc, hdn, hk, hfc, hfn]

lemma sameBlock_false_of_not_var_left (c n : Node)
    (hvc : isVariableDeclaration c = false) :
    areInSameDeclarationBlock c n = false := by
  simp [areInSameDeclarationBlock, hvc]

lemma sameBlock_false_of_not_var_right (c n : Node)
    (hvn : isVariableDeclaration n = false) :
    areInSameDeclarationBlock c n = false := by
  simp [areInSameDeclarationBlock, hvn]

/-- C1: within one declaration block (both statements non-destructuring
`VariableDeclaration`s of identical keyword, neither function-valued) no
blank line is enforced; a `VariableDeclaration` not in the same block as
its successor forces a blank line unless the successor is return-like;
and on `const a = 1; const b = 2; let c = 3;` a blank line is enforced
only before `let c`. -/
theorem blankLine_declaration_blocks :
    (∀ current next : Node,
        isVariableDeclaration current = true →
        isVariableDeclaration next = true →
        isDestructuringDeclaration current = false →
        isDestructuringDeclaration next = false →
        getDeclarationKind current = getDeclarationKind next →
        declarationsHaveFunctionInit current = false →
        declarationsHaveFunctionInit next = false →
        shouldEnforceBlankLineBetween current next = false) ∧
    (∀ current next : Node,
        isVariableDeclaration current = true →
        areInSameDeclarationBlock current next = false →
        isReturnLikeStatement next = false →
        shouldEnforceBlankLineBetween current next = true) ∧
    shouldEnforceBlankLineBetween constDeclA constDeclB = false ∧
    shouldEnforceBlankLineBetween constDeclB letDeclC = true := by
  refine ⟨?_, ?_, by decide, by decide⟩
  · intro current next hvc hvn hdc hdn hk hfc hfn
    have hsb := sameBlock_of_attrs current next hvc hvn hdc hdn hk hfc hfn
    have ht := var_type current hvc
    simp [shouldEnforceBlankLineBetween, isImportOrExport, ht, hsb]
  · intro current next hvc hsb hrn
    have ht := var_type current hvc
    simp [shouldEnforceBlankLineBetween, isImportOrExport, ht, hsb, hvc, hrn]

/-- Witness for C1 at the scenario nodes. -/
theorem blankLine_declaration_blocks_witness :
    shouldEnforceBlankLineBetween constDeclA constDeclB = false ∧
    shouldEnforceBlankLineBetween constDeclB letDeclC = true :=
  ⟨blankLine_declaration_blocks.1 constDeclA constDeclB (by decide) (by decide)
      (by decide) (by decide) (by decide) (by decide) (by decide),
    blankLine_declaration_blocks.2.1 constDeclB letDeclC (by decide) (by decide)
      (by decide)⟩

/-- C2: an import/export followed by a non-import/export always forces a
blank line, and two adjacent import/export statements never get one —
whatever declarator shapes (function-valued or not) the nodes carry,
because the both-import branch returns before the paragraph branch is
consulted. -/
theorem blankLine_import_export :
    (∀ current next : Node,
        isImportOrExport current = true →
        isImportOrExport next = false →
        shouldEnforceBlankLineBetween current next = true) ∧
    (∀ current next : Node,
        isImportOrExport current = true →
        isImportOrExport next = true →
        shouldEnforceBlankLineBetween current next = false) := by
  constructor
  · intro current next hc hn
    simp [shouldEnforceBlankLineBetween, hc, hn]
  · intro current next hc hn
    simp [shouldEnforceBlankLineBetween, hc, hn]

/-- Witness for C2: the second import/export has a function-valued
declarator shape and still gets no blank line. -/
theorem blankLine_import_export_witness :
    shouldEnforceBlankLineBetween importDeclM exprStmt = true ∧
    shouldEnforceBlankLineBetween importDeclM exportFnDecl = false :=
  ⟨blankLine_import_export.1 importDeclM exprStmt (by decide) (by decide),
    blankLine_import_export.2 importDeclM exportFnDecl (by decide) (by decide)⟩

/-- C3: a `VariableDeclaration` preceded by a statement that is neither a
`VariableDeclaration` nor an import/export always gets a blank line
before it. -/
theorem blankLine_before_declaration_block :
    ∀ current next : Node,
      isVariableDeclaration next = true →
      isVariableDeclaration current = false →
      isImportOrExport current = false →
      shouldEnforceBlankLineBetween current next = true := by
  intro current next hvn hvc hic
  have hsb := sameBlock_false_of_not_var_left current next hvc
  simp [shouldEnforceBlankLineBetween, hic, hsb, hvc, hvn]

/-- Witness for C3: `f(); const a = 1;`. -/
theorem blankLine_before_declaration_block_witness :
    shouldEnforceBlankLineBetween exprStmt constDeclA = true :=
  blankLine_before_declaration_block exprStmt constDeclA (by decide) (by decide)
    (by decide)

lemma paragraph_false_of_importOrExport (c : Node)
    (h : isImportOrExport c = true) : isParagraphStatement c = false := by
  simp only [isImportOrExport, Bool.or_eq_true, beq_iff_eq] at h
  rcases h with ((((h | h) | h) | h) | h) | h <;>
    simp [isParagraphStatement, isTopLevelDeclaration, isBlockStatement, h]

lemma importOrExport_false_of_paragraph (c : Node)
    (h : isParagraphStatement c = true) : isImportOrExport c = false := by
  cases him : isImportOrExport c
  · rfl
  · rw [paragraph_false_of_importOrExport c him] at h
    simp at h

lemma funcInit_of_var_paragraph (c : Node)
    (hp : isParagraphStatement c = true)
    (hv : isVariableDeclaration c = true) :
    declarationsHaveFunctionInit c = true := by
  have ht := var_type c hv
  simpa [isParagraphStatement, isTopLevelDeclaration, isBlockStatement, ht]
    using hp

lemma sameBlock_false_of_paragraph_left (c n : Node)
    (hp : isParagraphStatement c = true) :
    areInSameDeclarationBlock c n = false := by
  cases hv : isVariableDeclaration c
  · exact sameBlock_false_of_not_var_left c n hv
  · have hf := funcInit_of_var_paragraph c hp hv
    simp [areInSameDeclarationBlock, hf]

lemma sameBlock_false_of_paragraph_right (c n : Node)
    (hp : isParagraphStatement n = true) :
    areInSameDeclarationBlock c n = false := by
  cases hv : isVariableDeclaration n
  · exact sameBlock_false_of_not_var_right c n hv
  · have hf := funcInit_of_var_paragraph n hp hv
    simp [areInSameDeclarationBlock, hf]

lemma blockStatement_false_of_not_paragraph (c : Node)
    (h : isParagraphStatement c = false) : isBlockStatement c = false := by
  cases hb : isBlockStatement c
  · rfl
  · simp [isParagraphStatement, hb] at h

/-- C4: whenever either side of the pair is a paragraph statement (a
top-level declaration, a block-form statement, or a function-valued
`VariableDeclaration`), a blank line is enforced — this holds for every
pair outright, so in particular for the pairs the earlier rules leave
unresolved — and in the scenario `if (x) { f(); } return y;` a blank line
is enforced before the `return`. -/
theorem blankLine_paragraph_statements :
    (∀ current next : Node,
        (isParagraphStatement current || isParagraphStatement next) = true →
        shouldEnforceBlankLineBetween current next = true) ∧
    shouldEnforceBlankLineBetween ifStmtX returnStmtY = true := by
  refine ⟨?_, by decide⟩
  intro c n hp
  simp only [Bool.or_eq_true] at hp
  rcases hp with hc | hn
  · have hic := importOrExport_false_of_paragraph c hc
    have hsb := sameBlock_false_of_paragraph_left c n hc
    simp [shouldEnforceBlankLineBetween, hic, hsb, hc]
  · cases him : isImportOrExport c
    · have hsb := sameBlock_false_of_paragraph_right c n hn
      simp [shouldEnforceBlankLineBetween, him, hsb, hn]
    · have hin := importOrExport_false_of_paragraph n hn
      simp [shouldEnforceBlankLineBetween, him, hin]

/-- Witness for C4: a block-form statement followed by a plain
expression statement. -/
theorem blankLine_paragraph_statements_witness :
    shouldEnforceBlankLineBetween ifStmtX exprStmt = true :=
  blankLine_paragraph_statements.1 ifStmtX exprStmt (by decide)

/-- C5: the two trailing return-placement branches of
`shouldEnforceBlankLineBetween` are dead code — the full chain agrees
with its restriction to rules 1–6 on every pair of statements. -/
theorem trailing_return_branches_dead :
    ∀ current next : Node,
      shouldEnforceBlankLineBetween current next =
        shouldEnforceBlankLineRules1to6 current next := by
  intro c n
  cases hp : (isParagraphStatement c || isParagraphStatement n)
  · have hpc : isParagraphStatement c = false := by
      cases h : isParagraphStatement c
      · rfl
      · simp [h] at hp
    have hbc := blockStatement_false_of_not_paragraph c hpc
    simp [shouldEnforceBlankLineBetween, shouldEnforceBlankLineRules1to6, hp,
      hpc, hbc]
  · simp [shouldEnforceBlankLineBetween, shouldEnforceBlankLineRules1to6, hp]

/-- C10: only `ReturnStatement` is return-like — after a simple
(non-destructuring, non-function-valued) `VariableDeclaration`, a blank
line is enforced before `throw`/`break`/`continue`, but not before
`return`. -/
theorem blankLine_return_like_is_only_return :
    ∀ current next : Node,
      isVariableDeclaration current = true →
      isDestructuringDeclaration current = false →
      declarationsHaveFunctionInit current = false →
      ((next.type = "ThrowStatement" ∨ next.type = "BreakStatement" ∨
          next.type = "ContinueStatement") →
        shouldEnforceBlankLineBetween current next = true) ∧
      (next.type = "ReturnStatement" →
        shouldEnforceBlankLineBetween current next = false) := by
  intro c n hv hd hf
  have ht := var_type c hv
  constructor
  · intro htn
    have hvn : isVariableDeclaration n = false := by
      rcases htn with h | h | h <;> simp [isVariableDeclaration, h]
    have hsb := sameBlock_false_of_not_var_right c n hvn
    have hrn : isReturnLikeStatement n = false := by
      rcases htn with h | h | h <;> simp [isReturnLikeStatement, h]
    simp [shouldEnforceBlankLineBetween, isImportOrExport, ht, hsb, hv, hrn]
  · intro htn
    have hvn : isVariableDeclaration n = false := by
      simp [isVariableDeclaration, htn]
    have hsb := sameBlock_false_of_not_var_right c n hvn
    simp [shouldEnforceBlankLineBetween, isImportOrExport, isReturnLikeStatement,
      isParagraphStatement, isTopLevelDeclaration, isBlockStatement, ht, htn,
      hsb, hv, hvn, hf]

/-!
The emission loop: auxiliary list facts and the correspondence between
`seqLoop` and the spec-level emission contract.
-/

lemma getElem?_of_drop_eq_cons {α : Type _} :
    ∀ {l : List α} {i : Nat} {c : α} {rest : List α},
      l.drop i = c :: rest → l[i]? = some c := by
  intro l
  induction l with
  | nil => intro i c rest h; simp at h
  | cons x xs ih =>
    intro i c rest h
    cases i with
    | zero =>
      simp only [List.drop_zero] at h
      cases h
      simp
    | succ j =>
      simp only [List.drop_succ_cons] at h
      simpa using ih h

lemma drop_succ_of_drop_eq_cons {α : Type _} :
    ∀ {l : List α} {i : Nat} {c : α} {rest : List α},
      l.drop i = c :: rest → l.drop (i + 1) = rest := by
  intro l
  induction l with
  | nil => intro i c rest h; simp at h
  | cons x xs ih =>
    intro i c rest h
    cases i with
    | zero =>
      simp only [List.drop_zero] at h
      cases h
      rfl
    | succ j =>
      simp only [List.drop_succ_cons] at h ⊢
      exact ih h

lemma length_of_drop_eq_cons {α : Type _} {l : List α} {i : Nat} {c : α}
    {rest : List α} (h : l.drop i = c :: rest) :
    l.length = i + rest.length + 1 := by
  have h1 := List.length_drop i l
  rw [h] at h1
  simp at h1
  omega

/-- One-step unfolding of the loop on an empty remaining list. -/
lemma seqLoop_nil (statements : List Node) (print : Node → Doc)
    (g : Node → Bool) (index : Nat) :
    seqLoop statements print g [] index = [] := rfl

/-- One-step unfolding of the loop on a non-empty remaining list. -/
lemma seqLoop_cons (statements : List Node) (print : Node → Doc)
    (g : Node → Bool) (currentNode : Node) (rest : List Node) (index : Nat) :
    seqLoop statements print g (currentNode :: rest) index =
      if currentNode.type == "EmptyStatement" then
        seqLoop statements print g rest index
      else
        (print currentNode ::
          (if index + 1 < statements.length then
            Doc.hardline ::
              (if
                  g currentNode ||
                    (match statements[index + 1]? with
                      | some nextNode =>
                          shouldEnforceBlankLineBetween currentNode nextNode
                      | none => false) then
                [Doc.hardline]
              else
                [])
          else
            [])) ++ seqLoop statements print g rest (index + 1) := rfl

/-- Skipping Empty statements inside the loop is the same as filtering
them away beforehand: the loop never touches them and never advances the
index on them. -/
lemma seqLoop_filter (statements : List Node) (print : Node → Doc)
    (g : Node → Bool) :
    ∀ (l : List Node) (index : Nat),
      seqLoop statements print g l index =
        seqLoop statements print g
          (l.filter fun s => s.type != "EmptyStatement") index := by
  intro l
  induction l with
  | nil => intro index; rfl
  | cons c rest ih =>
    intro index
    by_cases hc : c.type = "EmptyStatement"
    · simp only [seqLoop_cons, List.filter_cons]
      simp [hc, ih]
    · simp only [seqLoop_cons, List.filter_cons]
      simp [hc, ih]
      rw [seqLoop_cons]
      simp [hc]

/-- On a suffix of the filtered list that contains no Empty statements,
the loop emits exactly the spec-level separator pattern. -/
lemma seqLoop_specEmit (statements : List Node) (print : Node → Doc)
    (g : Node → Bool) :
    ∀ (l : List Node) (index : Nat),
      statements.drop index = l →
      (∀ s ∈ l, (s.type == "EmptyStatement") = false) →
      seqLoop statements print g l index = specEmit print g l := by
  intro l
  induction l with
  | nil => intro index _ _; rfl
  | cons c rest ih =>
    intro index hdrop hno
    have hc : (c.type == "EmptyStatement") = false := hno c (by simp)
    have hdrop' := drop_succ_of_drop_eq_cons hdrop
    have hlen := length_of_drop_eq_cons hdrop
    cases rest with
    | nil =>
      have hguard : ¬ index + 1 < statements.length := by
        simp at hlen
        omega
      rw [seqLoop_cons]
      simp [hc, hguard, seqLoop_nil, specEmit]
    | cons t rest' =>
      have hguard : index + 1 < statements.length := by
        simp at hlen
        omega
      have hget : statements[index + 1]? = some t :=
        getElem?_of_drop_eq_cons hdrop'
      have ihr := ih (index + 1) hdrop' fun s hs => hno s (by simp [hs])
      rw [seqLoop_cons]
      simp [hc, hguard, hget, ihr, specEmit]

/-- The whole pipeline: `printStatementSequence` equals the spec-level
emission applied to the filtered statement list. -/
lemma printStatementSequence_eq_specEmit (body : List Node)
    (print : Node → Doc) (g : Node → Bool) :
    printStatementSequence body print g =
      specEmit print g (body.filter fun s => s.type != "EmptyStatement") := by
  unfold printStatementSequence
  rw [seqLoop_filter]
  refine seqLoop_specEmit _ _ _ _ 0 (by simp) fun s hs => ?_
  have := List.of_mem_filter hs
  simpa using this

/-- C6: after each non-last filtered statement the emitter appends
exactly one mandatory line break, plus exactly one additional break iff
the gap oracle reports a source blank line or the decision function
fires, and the final filtered statement receives no trailing
separator — i.e. the emitter coincides with the spec-level separator
pattern `specEmit` on the filtered sequence. -/
theorem printStatementSequence_separators (body : List Node)
    (print : Node → Doc) (g : Node → Bool) :
    printStatementSequence body print g =
      specEmit print g (body.filter fun s => s.type != "EmptyStatement") :=
  printStatementSequence_eq_specEmit body print g

/-- C7: Empty statements are transparent — `[A, Empty, B]` renders
exactly as `[A, B]` under the same renderer and gap oracle, and the gap
fact used for the `A`–`B` boundary is the oracle's answer at `A`, the
(non-Empty) statement preceding `B` for which the oracle is answerable,
so the intervening Empty contributes nothing of its own. -/
theorem emptyStatement_transparent :
    ∀ (A E B : Node) (print : Node → Doc) (g : Node → Bool),
      (A.type == "EmptyStatement") = false →
      (B.type == "EmptyStatement") = false →
      E.type = "EmptyStatement" →
      printStatementSequence [A, E, B] print g =
          printStatementSequence [A, B] print g ∧
      printStatementSequence [A, E, B] print g =
        print A :: Doc.hardline ::
          ((if g A || shouldEnforceBlankLineBetween A B then [Doc.hardline]
            else []) ++ [print B]) := by
  intro A E B print g hA hB hE
  have hA' : ¬ A.type = "EmptyStatement" := by simpa using hA
  have hB' : ¬ B.type = "EmptyStatement" := by simpa using hB
  have h1 := printStatementSequence_eq_specEmit [A, E, B] print g
  have h2 := printStatementSequence_eq_specEmit [A, B] print g
  rw [show ([A, E, B].filter fun s => s.type != "EmptyStatement") = [A, B] by
    simp [List.filter_cons, hA', hB', hE]] at h1
  rw [show ([A, B].filter fun s => s.type != "EmptyStatement") = [A, B] by
    simp [List.filter_cons, hA', hB']] at h2
  refine ⟨h1.trans h2.symm, h1.trans ?_⟩
  simp [specEmit]

/-- Witness for C7: `f(); ; return y;` renders as `f(); return y;`. -/
theorem emptyStatement_transparent_witness :
    printStatementSequence [exprStmt, emptyStmt, returnStmtY]
        (fun n => Doc.text n.type) (fun _ => false) =
      printStatementSequence [exprStmt, returnStmtY]
        (fun n => Doc.text n.type) (fun _ => false) :=
  (emptyStatement_transparent exprStmt emptyStmt returnStmtY
      (fun n => Doc.text n.type) (fun _ => false) (by decide) (by decide)
      rfl).1

/-!
Clause placement: the try/catch/finally keywords.
-/

/-- The flattened form of a printed try statement, by case on the two
optional clauses. -/
lemma printTryStatement_leaves (node : TryStmt) :
    leaves (printTryStatement node) =
      Doc.text "try " :: leaves node.block ++
        (match node.handler with
          | some h => Doc.text " " :: leaves (printCatchClause h)
          | none => [Doc.text ""]) ++
        (match node.finalizer with
          | some f => Doc.hardline :: Doc.text "finally " :: leaves f
          | none => [Doc.text ""]) := by
  cases hh : node.handler <;> cases hf : node.finalizer <;>
    simp [printTryStatement, hh, hf]

/-- A printed catch clause always begins with a forced line break
followed by the `catch` keyword. -/
lemma printCatchClause_leaves (h : CatchClause) :
    ∃ tail, leaves (printCatchClause h) =
      Doc.hardline :: Doc.text "catch " :: tail := by
  cases hp : h.param with
  | none => exact ⟨leaves h.body, by simp [printCatchClause, hp]⟩
  | some p =>
    cases hb : hasComment p fun comment =>
        !comment.isBlockComment ||
        (comment.leading && comment.newlineAfterEnd) ||
        (comment.trailing && comment.newlineBeforeStart)
    · exact ⟨Doc.text "(" :: (leaves p.doc ++ [Doc.text ") "]) ++ leaves h.body,
        by simp [printCatchClause, hp, hb]⟩
    · exact ⟨Doc.text "(" :: Doc.softline ::
          (leaves p.doc ++ [Doc.softline, Doc.text ") "]) ++ leaves h.body,
        by simp [printCatchClause, hp, hb]⟩

/-- C8: in the printed document of a try statement, a forced line break
stands immediately before the `catch` keyword whenever a handler exists
(with or without a bound parameter), and immediately before the
`finally` keyword whenever a finalizer exists, with or without a
handler — so neither keyword can ever be rendered on the line of the
preceding closing brace. -/
theorem try_catch_finally_on_own_line :
    ∀ node : TryStmt,
      (node.handler.isSome = true →
        ∃ pre post, leaves (printTryStatement node) =
          pre ++ Doc.hardline :: Doc.text "catch " :: post) ∧
      (node.finalizer.isSome = true →
        ∃ pre post, leaves (printTryStatement node) =
          pre ++ Doc.hardline :: Doc.text "finally " :: post) := by
  intro node
  constructor
  · intro hh
    obtain ⟨h, hh'⟩ := Option.isSome_iff_exists.mp hh
    obtain ⟨tail, htail⟩ := printCatchClause_leaves h
    refine ⟨Doc.text "try " :: leaves node.block ++ [Doc.text " "],
      tail ++
        (match node.finalizer with
          | some f => Doc.hardline :: Doc.text "finally " :: leaves f
          | none => [Doc.text ""]), ?_⟩
    rw [printTryStatement_leaves, hh']
    simp [htail]
  · intro hf
    obtain ⟨f, hf'⟩ := Option.isSome_iff_exists.mp hf
    refine ⟨Doc.text "try " :: leaves node.block ++
        (match node.handler with
          | some h => Doc.text " " :: leaves (printCatchClause h)
          | none => [Doc.text ""]), leaves f, ?_⟩
    rw [printTryStatement_leaves, hf']

/-- Witness for C8 at the scenario try statement. -/
theorem try_catch_finally_on_own_line_witness :
    (∃ pre post, leaves (printTryStatement tryCatchFinallyEx) =
      pre ++ Doc.hardline :: Doc.text "catch " :: post) ∧
    (∃ pre post, leaves (printTryStatement tryCatchFinallyEx) =
      pre ++ Doc.hardline :: Doc.text "finally " :: post) :=
  ⟨(try_catch_finally_on_own_line tryCatchFinallyEx).1 rfl,
    (try_catch_finally_on_own_line tryCatchFinallyEx).2 rfl⟩

lemma commentTest_iff_spec (c : Comment) :
    (!c.isBlockComment ||
      (c.leading && c.newlineAfterEnd) ||
      (c.trailing && c.newlineBeforeStart)) = true ↔
      specCommentBreaksParens c := by
  rcases c with ⟨b, l, t, a, s⟩
  cases b <;> cases l <;> cases t <;> cases a <;> cases s <;>
    simp [specCommentBreaksParens]

/-- C9: a bound catch parameter carrying a comment that satisfies the
adjacency condition is rendered inside parentheses as an indented,
breakable group (optional break before the parameter and before the
closing parenthesis); otherwise — in particular with no comments at
all — it is rendered compactly inline with no added breaks. -/
theorem catch_param_comment_rendering :
    ∀ (node : CatchClause) (p : CatchParam),
      node.param = some p →
      ((∃ c ∈ p.comments, specCommentBreaksParens c) →
          printCatchClause node =
            .concat [.hardline, .text "catch ",
              .concat [.text "(", .indent (.concat [.softline, p.doc]),
                .softline, .text ") "], node.body]) ∧
      (¬ (∃ c ∈ p.comments, specCommentBreaksParens c) →
          printCatchClause node =
            .concat [.hardline, .text "catch ",
              .concat [.text "(", p.doc, .text ") "], node.body]) := by
  intro node p hp
  have hiff :
      (hasComment p fun comment =>
          !comment.isBlockComment ||
          (comment.leading && comment.newlineAfterEnd) ||
          (comment.trailing && comment.newlineBeforeStart)) = true ↔
        ∃ c ∈ p.comments, specCommentBreaksParens c := by
    simp only [hasComment, List.any_eq_true]
    exact exists_congr fun c =>
      and_congr_right fun _ => commentTest_iff_spec c
  constructor
  · intro hex
    have hb := hiff.mpr hex
    simp [printCatchClause, hp, hb]
  · intro hnex
    have hb :
        (hasComment p fun comment =>
            !comment.isBlockComment ||
            (comment.leading && comment.newlineAfterEnd) ||
            (comment.trailing && comment.newlineBeforeStart)) = false := by
      cases hcb : hasComment p fun comment =>
          !comment.isBlockComment ||
          (comment.leading && comment.newlineAfterEnd) ||
          (comment.trailing && comment.newlineBeforeStart)
      · rfl
      · exact absurd (hiff.mp hcb) hnex
    simp [printCatchClause, hp, hb]

/-- Witness for C9: the commented parameter gets the indented breakable
parentheses, the uncommented one the compact form. -/
theorem catch_param_comment_rendering_witness :
    printCatchClause catchWithLineComment =
      .concat [.hardline, .text "catch ",
        .concat [.text "(", .indent (.concat [.softline, Doc.text "e"]),
          .softline, .text ") "], Doc.text "{}"] ∧
    printCatchClause catchNoComments =
      .concat [.hardline, .text "catch ",
        .concat [.text "(", Doc.text "e", .text ") "], Doc.text "{}"] :=
  ⟨(catch_param_comment_rendering catchWithLineComment _ rfl).1
      ⟨lineComment, by simp [catchWithLineComment, lineComment],
        Or.inl rfl⟩,
    (catch_param_comment_rendering catchNoComments _ rfl).2
      (by simp [catchNoComments])⟩

/-- Witness for C10: `const a = 1; throw e;` forces a blank line,
`const a = 1; return y;` does not. -/
theorem blankLine_return_like_is_only_return_witness :
    shouldEnforceBlankLineBetween constDeclA throwStmtE = true ∧
    shouldEnforceBlankLineBetween constDeclA returnStmtY = false :=
  ⟨(blankLine_return_like_is_only_return constDeclA throwStmtE (by decide)
      (by decide) (by decide)).1 (Or.inl rfl),
    (blankLine_return_like_is_only_return constDeclA returnStmtY (by decide)
      (by decide) (by decide)).2 rfl⟩
